import Mathlib

/-!
Shallow embedding of the XiaomiMijiaReader sensor server
(src/wss.py, src/read.py, src/find_new_xdevices.py, src/get_sensor_data.py).

Python dicts are modelled as association lists with first-key lookup.
Assignment to an existing key replaces the value in place and assignment to
a new key appends, matching the insertion-ordered semantics of Python
dictionaries.  Exceptions raised by the Python runtime on the modelled code
paths are the PyError type, and fallible code returns Except PyError.
Timestamps are integers (seconds).
-/

/-- Exceptions raised by the Python runtime on the modelled code paths. -/
inductive PyError where
  | keyError (key : String) : PyError
  | typeError : PyError
  | attributeError (attr : String) : PyError
  | runtimeError : PyError
  | jsonDecodeError : PyError
deriving Repr, DecidableEq

/-- Python LookupError is the base class of exactly KeyError and IndexError;
of the errors arising in the modelled paths only KeyError is one. -/
def isLookupError : PyError → Bool
  | PyError.keyError _ => true
  | _ => false

/-- Python dict lookup d[k] on an association list: first entry with the key. -/
def dictGet {α : Type} : List (String × α) → String → Option α
  | [], _ => none
  | (a, b) :: t, k => if a = k then some b else dictGet t k

/-- Python dict assignment d[k] = v: replace the value at the existing key,
keeping its position; append when the key is new. -/
def dictInsert {α : Type} : List (String × α) → String → α → List (String × α)
  | [], k, v => [(k, v)]
  | (a, b) :: t, k, v => if a = k then (k, v) :: t else (a, b) :: dictInsert t k v

/-- The Python dict literal with two unpackings, as in the registry merge:
start from a copy of the first dict and assign every entry of the second in
order, so the second dict wins on a shared key. -/
def dictUnion {α : Type} (a b : List (String × α)) : List (String × α) :=
  b.foldl (fun acc p => dictInsert acc p.1 p.2) a

/-- Number of entries stored under a given key. -/
def countKey {α : Type} (m : List (String × α)) (k : String) : Nat :=
  (m.filter (fun p => decide (p.1 = k))).length

/-- One reading as emitted by get_sensor_data.py: timestamp, temperature,
humidity and battery.  The temperature is kept in hundredths, the form the
hardware boundary uses. -/
structure Reading where
  timestamp : String
  temperature : Int
  humidity : Int
  battery : Int
deriving Repr, DecidableEq

/-- The per-device JSON record built at discovery time. -/
structure DeviceRecord where
  dev_name : String
  addr : String
  sensor_name : String
  history_file : String
  active : Bool
  last_reading : Option Reading
deriving Repr, DecidableEq

abbrev DeviceMap := List (String × DeviceRecord)

def TEMP_HUM_DEV_ADDR_START : String := "A4:C1:38"

def TEMP_HUM_DEV_NAME : String := "LYWSD03MMC"

/-- Python format string "Sensor %02d". -/
def sensorLabel (n : Nat) : String :=
  "Sensor " ++ (if n < 10 then "0" ++ toString n else toString n)

/-- Python addr.replace(":", ""): for a one-character pattern and an empty
replacement this deletes every colon. -/
def stripColons (addr : String) : String :=
  String.mk (addr.data.filter (fun c => decide (c ≠ ':')))

/-- The DeviceRecord dict built for a newly discovered peripheral in
read.py find_new_xiaomi_devices and in find_new_xdevices.py. -/
def mkDiscovered (next_index : Nat) (addr name : String) : DeviceRecord :=
  { dev_name := name
    addr := addr
    sensor_name := sensorLabel next_index
    history_file := "sensor_" ++ stripColons addr ++ "_history.json"
    active := true
    last_reading := none }

/-- Acceptance filter of the discovery scan: the address starts with the
vendor address bytes, or the advertised name equals the sensor model name. -/
def isXiaomiDevice (addr name : String) : Bool :=
  decide (addr.take TEMP_HUM_DEV_ADDR_START.length = TEMP_HUM_DEV_ADDR_START) ||
    decide (name = TEMP_HUM_DEV_NAME)

/-- The scan loop shared by read.py find_new_xiaomi_devices and
find_new_xdevices.py: walk the discovered (address, name) pairs, keep the
matching devices whose address is not already known, and assign sequential
Sensor labels starting from the given next index. -/
def findNewLoop (existingKeys : List String) :
    Nat → List (String × String) → DeviceMap → DeviceMap
  | _, [], acc => acc
  | next_index, (addr, name) :: rest, acc =>
    if isXiaomiDevice addr name then
      if addr ∈ existingKeys then
        findNewLoop existingKeys next_index rest acc
      else
        findNewLoop existingKeys (next_index + 1) rest
          (dictInsert acc addr (mkDiscovered next_index addr name))
    else
      findNewLoop existingKeys next_index rest acc

/-- read.py find_new_xiaomi_devices, which is also the computation performed
by the find_new_xdevices.py subprocess that wss.py spawns with the known
addresses on its command line: next_index starts at len(existing) + 1 and
already known addresses are skipped. -/
def find_new_xiaomi_devices (existing : DeviceMap)
    (scan : List (String × String)) : DeviceMap :=
  findNewLoop (existing.map Prod.fst) (existing.length + 1) scan []

/-- The registry merge performed after discovery in wss.py gather_readings
line 115 and in the read.py main loop line 300. -/
def mergeDevices (existing discovered : DeviceMap) : DeviceMap :=
  dictUnion existing discovered

/-- JSON values as produced by loads. -/
inductive Json where
  | null : Json
  | bool (b : Bool) : Json
  | num (n : Int) : Json
  | str (s : String) : Json
  | arr (elems : List Json) : Json
  | obj (fields : List (String × Json)) : Json
deriving Repr

/-- Python subscription value[key] with a string key: an object missing the
key raises KeyError (a LookupError); any non-object value raises TypeError. -/
def jsonGet : Json → String → Except PyError Json
  | Json.obj fields, key =>
    match dictGet fields key with
    | some v => Except.ok v
    | none => Except.error (PyError.keyError key)
  | _, _ => Except.error PyError.typeError

def isStr (j : Json) (s : String) : Bool :=
  match j with
  | Json.str t => decide (t = s)
  | _ => false

def isObjB : Json → Bool
  | Json.obj _ => true
  | _ => false

/-- Does a decoded message carry both protocol keys. -/
def hasCmdAndData : Json → Bool
  | Json.obj fields => (dictGet fields "cmd").isSome && (dictGet fields "data").isSome
  | _ => false

namespace SensorServer

/-- The settings dictionary, shaped by the wss.py load_settings defaults. -/
structure Settings where
  interval_mins : Int
  interval_secs : Int
  sensor_file : String
  save_id : Int
  scan_seconds : Int
  max_attempts : Nat
  next_scan : Int
deriving Repr, DecidableEq

/-- wss.py save_settings: increments save_id by exactly one and then writes
the dictionary out, so the returned value is both the in-memory and the
persisted state after the save. -/
def save_settings (s : Settings) : Settings :=
  { s with save_id := s.save_id + 1 }

/-- An operation interleaved on the settings value: a completed save, or
any other mutation of the settings. -/
inductive SettingsOp where
  | save : SettingsOp
  | mutate (f : Settings → Settings) : SettingsOp

def run_settings_ops : Settings → List SettingsOp → Settings
  | s, [] => s
  | s, SettingsOp.save :: rest => run_settings_ops (save_settings s) rest
  | s, SettingsOp.mutate f :: rest => run_settings_ops (f s) rest

def countSaves : List SettingsOp → Nat
  | [] => 0
  | SettingsOp.save :: rest => countSaves rest + 1
  | SettingsOp.mutate _ :: rest => countSaves rest

/-- The next_scan update at the end of one gather_readings cycle in wss.py
lines 138 to 144: advance by one interval from the previous next_scan, then
snap to now when that lies strictly in the past.  Times are in seconds. -/
def advance_next_scan (next_scan interval now : Int) : Int :=
  let advanced := next_scan + interval
  if now > advanced then now else advanced

/-- What the discovery subprocess wrote to its stdout, as seen by loads:
either text that parses to a device map, or text that loads rejects. -/
inductive SubprocOutput where
  | valid (m : DeviceMap) : SubprocOutput
  | malformed : SubprocOutput

/-- wss.py find_new_xiaomi_devices once the subprocess has been waited for.
A returncode of none models a process still running when the 180 second
wait_for timed out, in which case the TimeoutError is caught and only
logged.  x_devices starts as the empty dict; only a zero exit status makes
the code parse stdout, and loads raises on malformed text with no handler
around it. -/
def find_new_xiaomi_devices (returncode : Option Int) (output : SubprocOutput) :
    Except PyError DeviceMap :=
  if returncode = some 0 then
    match output with
    | SubprocOutput.valid m => Except.ok m
    | SubprocOutput.malformed => Except.error PyError.jsonDecodeError
  else
    Except.ok []

/-- The content update of wss.py update_histories: the history map loaded
from the history file (empty when the file is absent or empty) gets the new
reading stored under its timestamp key and is written back in full. -/
def update_histories (history : List (String × Reading)) (new_reading : Reading) :
    List (String × Reading) :=
  dictInsert history new_reading.timestamp new_reading

/-- Exit codes of get_sensor_data.py as consumed by gather_sensor_readings:
OK 0, INVALID_ARGS 1, USER_CANCELLED 2, TIMED_OUT 3, DISCONNECTED 4 and a
final catch-all for any other status. -/
inductive Outcome where
  | ok (r : Reading) : Outcome
  | invalidArgs : Outcome
  | userCancelled : Outcome
  | timedOut : Outcome
  | disconnected : Outcome
  | unknown : Outcome
deriving Repr

/-- An outcome that records no reading and is not the INVALID_ARGS status
that raises RuntimeError. -/
def nonSuccess : Outcome → Bool
  | Outcome.ok _ => false
  | Outcome.invalidArgs => false
  | _ => true

/-- The while loop of wss.py gather_sensor_readings for one device.  The
fuel argument equals max_attempts - attempts, so the loop guard attempts <
max_attempts is fuel > 0, and outcomes inv is the exit status of invocation
number inv of the read subprocess.  OK stores the reading on the device and
in its history and sets readings_complete; TIMED_OUT consumes the attempt
and retries; USER_CANCELLED sets readings_complete; DISCONNECTED and the
unknown branch set attempts to max_attempts so the guard fails; and
INVALID_ARGS raises RuntimeError.  The returned number is the count of
subprocess invocations made. -/
def gather_loop (outcomes : Nat → Outcome) :
    Nat → DeviceRecord → List (String × Reading) → Nat →
    Except PyError (Nat × DeviceRecord × List (String × Reading))
  | inv, dev, hist, 0 => Except.ok (inv, dev, hist)
  | inv, dev, hist, fuel + 1 =>
    match outcomes inv with
    | Outcome.ok r =>
      Except.ok (inv + 1, { dev with last_reading := some r }, update_histories hist r)
    | Outcome.invalidArgs => Except.error PyError.runtimeError
    | Outcome.userCancelled => Except.ok (inv + 1, dev, hist)
    | Outcome.timedOut => gather_loop outcomes (inv + 1) dev hist fuel
    | Outcome.disconnected => Except.ok (inv + 1, dev, hist)
    | Outcome.unknown => Except.ok (inv + 1, dev, hist)

/-- One device pass of gather_sensor_readings: attempts and the invocation
counter both start at zero. -/
def gather_one_device (outcomes : Nat → Outcome) (max_attempts : Nat)
    (dev : DeviceRecord) (hist : List (String × Reading)) :
    Except PyError (Nat × DeviceRecord × List (String × Reading)) :=
  gather_loop outcomes 0 dev hist max_attempts

/-- The device record and history a finished device pass leaves behind,
when the pass did not raise. -/
def resultState :
    Except PyError (Nat × DeviceRecord × List (String × Reading)) →
    Option (DeviceRecord × List (String × Reading))
  | Except.ok x => some x.2
  | Except.error _ => none

/-- The mutable attributes of the server object that handle_message touches.
__init__ assigns _settings and _devices (besides locks, the client table and
counters); no method of the class ever assigns an attribute named _sensors,
so every read of self._sensors raises AttributeError. -/
structure ServerState where
  settings : Json
  devices : Json
deriving Repr

/-- wss.py SensorServer.handle_message.  The settings and sensors branches
replace the corresponding attribute wholesale; their broadcast_settings()
and broadcast_sensors() calls lack an await, so the created coroutine never
runs and nothing is sent.  The single_sensor branch reads data["index"] and
data["sensor"] and then evaluates addr in self._sensors, which raises
AttributeError because the object has no such attribute.  An unrecognized
command is printed and ignored. -/
def handle_message (st : ServerState) (message : Json) : Except PyError ServerState :=
  match jsonGet message "cmd" with
  | Except.error e => Except.error e
  | Except.ok cmd =>
    match jsonGet message "data" with
    | Except.error e => Except.error e
    | Except.ok data =>
      if isStr cmd "settings" then
        Except.ok { st with settings := data }
      else if isStr cmd "sensors" then
        Except.ok { st with devices := data }
      else if isStr cmd "single_sensor" then
        match jsonGet data "index" with
        | Except.error e => Except.error e
        | Except.ok _ =>
          match jsonGet data "sensor" with
          | Except.error e => Except.error e
          | Except.ok _ => Except.error (PyError.attributeError "_sensors")
      else
        Except.ok st

/-- What one iteration of the new_client receive loop does to the session. -/
inductive SessionFate where
  | active : SessionFate
  | removed (e : PyError) : SessionFate
deriving Repr, DecidableEq

/-- One received frame: either text loads rejects, or text parsing to j. -/
inductive RawMessage where
  | invalid : RawMessage
  | parsed (j : Json) : RawMessage

/-- One iteration of the receive loop in wss.py new_client.  A JSON parse
failure is printed and the frame dropped with the session still active.  An
exception out of handle_message is re-raised by the inner handler, caught by
the outer one, and the session is removed from the client table before the
exception continues. -/
def process_client_message (st : ServerState) (raw : RawMessage) :
    ServerState × SessionFate :=
  match raw with
  | RawMessage.invalid => (st, SessionFate.active)
  | RawMessage.parsed j =>
    match handle_message st j with
    | Except.ok st2 => (st2, SessionFate.active)
    | Except.error e => (st, SessionFate.removed e)

/-- wss.py broadcast_message with no target: iterate the client table keys
in order, sending to each client, here given as (key, whether the send
succeeds).  A failing send prints and re-raises, which aborts the remaining
fan-out.  The result is the list of keys the message reached together with
the key of the failing client when the fan-out aborted. -/
def broadcast_message : List (Nat × Bool) → List Nat × Option Nat
  | [] => ([], none)
  | (key, sendOk) :: rest =>
    if sendOk then
      let r := broadcast_message rest
      (key :: r.1, r.2)
    else
      ([], some key)

end SensorServer

/-! Dictionary lemmas. -/

theorem dictGet_insert_self {α : Type} (m : List (String × α)) (k : String) (v : α) :
    dictGet (dictInsert m k v) k = some v := by
  induction m with
  | nil => simp [dictInsert, dictGet]
  | cons h t ih =>
    obtain ⟨a, b⟩ := h
    by_cases hak : a = k
    · simp [dictInsert, hak, dictGet]
    · simp [dictInsert, hak, dictGet, ih]

theorem dictGet_insert_ne {α : Type} (m : List (String × α)) (k k' : String) (v : α)
    (h : k' ≠ k) : dictGet (dictInsert m k v) k' = dictGet m k' := by
  induction m with
  | nil => simp [dictInsert, dictGet, Ne.symm h]
  | cons p t ih =>
    obtain ⟨a, b⟩ := p
    by_cases hak : a = k
    · subst hak
      simp [dictInsert, dictGet, Ne.symm h]
    · simp [dictInsert, hak, dictGet, ih]

theorem mem_keys_dictInsert {α : Type} (m : List (String × α)) (k : String) (v : α)
    (x : String) (hx : x ∈ (dictInsert m k v).map Prod.fst) :
    x ∈ m.map Prod.fst ∨ x = k := by
  induction m with
  | nil => simpa [dictInsert] using hx
  | cons p t ih =>
    obtain ⟨a, b⟩ := p
    by_cases hak : a = k
    · simp only [dictInsert, if_pos hak, List.map_cons, List.mem_cons] at hx
      rcases hx with hx | hx
      · exact Or.inr hx
      · exact Or.inl (by simp [hx])
    · simp only [dictInsert, if_neg hak, List.map_cons, List.mem_cons] at hx
      rcases hx with hx | hx
      · exact Or.inl (by simp [hx])
      · rcases ih hx with h1 | h1
        · exact Or.inl (by simp [h1])
        · exact Or.inr h1

theorem mem_dictInsert {α : Type} (m : List (String × α)) (k : String) (v : α)
    (p : String × α) (hp : p ∈ dictInsert m k v) : p.1 = k ∨ p ∈ m := by
  induction m with
  | nil =>
    simp [dictInsert] at hp
    exact Or.inl (by simp [hp])
  | cons q t ih =>
    obtain ⟨a, b⟩ := q
    by_cases hak : a = k
    · simp only [dictInsert, if_pos hak, List.mem_cons] at hp
      rcases hp with hp | hp
      · exact Or.inl (by simp [hp])
      · exact Or.inr (List.mem_cons_of_mem _ hp)
    · simp only [dictInsert, if_neg hak, List.mem_cons] at hp
      rcases hp with hp | hp
      · exact Or.inr (by simp [hp])
      · rcases ih hp with h1 | h1
        · exact Or.inl h1
        · exact Or.inr (List.mem_cons_of_mem _ h1)

theorem dictGet_mem_keys {α : Type} (m : List (String × α)) (k : String) (v : α)
    (h : dictGet m k = some v) : k ∈ m.map Prod.fst := by
  induction m with
  | nil => simp [dictGet] at h
  | cons p t ih =>
    obtain ⟨a, b⟩ := p
    by_cases hak : a = k
    · simp [hak]
    · simp only [dictGet, if_neg hak] at h
      simpa using Or.inr (ih h)

theorem dictGet_union_of_disjoint {α : Type} (b a : List (String × α)) (k : String)
    (h : ∀ p ∈ b, p.1 ≠ k) : dictGet (dictUnion a b) k = dictGet a k := by
  induction b generalizing a with
  | nil => rfl
  | cons q t ih =>
    have hstep : dictUnion a (q :: t) = dictUnion (dictInsert a q.1 q.2) t := rfl
    rw [hstep, ih (dictInsert a q.1 q.2) (fun p hp => h p (List.mem_cons_of_mem _ hp)),
      dictGet_insert_ne]
    exact fun hh => h q (List.mem_cons_self _ _) hh.symm

/-! Discovery output never carries an already known address. -/

theorem findNewLoop_not_existing (existingKeys : List String) (scan : List (String × String)) :
    ∀ (ni : Nat) (acc : DeviceMap),
      (∀ p ∈ acc, p.1 ∉ existingKeys) →
      ∀ p ∈ findNewLoop existingKeys ni scan acc, p.1 ∉ existingKeys := by
  induction scan with
  | nil =>
    intro ni acc hacc
    simpa [findNewLoop] using hacc
  | cons q rest ih =>
    intro ni acc hacc
    obtain ⟨addr, name⟩ := q
    by_cases h1 : isXiaomiDevice addr name
    · by_cases h2 : addr ∈ existingKeys
      · simpa [findNewLoop, h1, h2] using ih ni acc hacc
      · have hacc2 : ∀ p ∈ dictInsert acc addr (mkDiscovered ni addr name),
            p.1 ∉ existingKeys := by
          intro p hp
          rcases mem_dictInsert acc addr _ p hp with hk | hk
          · rw [hk]; exact h2
          · exact hacc p hk
        simpa [findNewLoop, h1, h2] using ih (ni + 1) _ hacc2
    · simpa [findNewLoop, h1] using ih ni acc hacc

/-- Claim C1 (counterexample to the claim as stated): the merge performed in
wss.py gather_readings and in the read.py main loop is the Python dict union
in which the discovered map wins, so for an arbitrary discovered map whose
address is already a key of the existing map the existing record is
overwritten rather than the discovered entry dropped. -/
theorem C1_counterexample :
    dictGet (mergeDevices
        [("A4:C1:38:AA:BB:CC", mkDiscovered 1 "A4:C1:38:AA:BB:CC" "LYWSD03MMC")]
        [("A4:C1:38:AA:BB:CC", mkDiscovered 2 "A4:C1:38:AA:BB:CC" "LYWSD03MMC")])
        "A4:C1:38:AA:BB:CC"
      = some (mkDiscovered 2 "A4:C1:38:AA:BB:CC" "LYWSD03MMC")
    ∧ mkDiscovered 2 "A4:C1:38:AA:BB:CC" "LYWSD03MMC"
      ≠ mkDiscovered 1 "A4:C1:38:AA:BB:CC" "LYWSD03MMC" := by
  exact ⟨rfl, by decide⟩

/-- Claim C1 (amended): the discovery step itself never emits an already
registered address (read.py find_new_xiaomi_devices and the
find_new_xdevices.py subprocess both skip addresses in the existing set),
and merging discovery output into the registry therefore leaves the record
of every existing address unchanged; arbitrary discovered maps sharing an
address with the registry would instead win the merge. -/
theorem C1_merge_preserves_existing (existing : DeviceMap)
    (scan : List (String × String)) (addr : String) (r : DeviceRecord)
    (h : dictGet existing addr = some r) :
    dictGet (mergeDevices existing (find_new_xiaomi_devices existing scan)) addr
      = some r := by
  have hmem : addr ∈ existing.map Prod.fst := dictGet_mem_keys existing addr r h
  have hdisc : ∀ p ∈ find_new_xiaomi_devices existing scan, p.1 ≠ addr := by
    intro p hp heq
    have := findNewLoop_not_existing (existing.map Prod.fst) scan
      (existing.length + 1) [] (by simp) p hp
    rw [heq] at this
    exact this hmem
  rw [mergeDevices, dictGet_union_of_disjoint _ _ _ hdisc, h]

/-- Witness for C1: a registry holding one device, a scan that reports the
same address again plus one genuinely new address. -/
theorem C1_witness :
    dictGet (mergeDevices
        [("A4:C1:38:AA:BB:CC", mkDiscovered 1 "A4:C1:38:AA:BB:CC" "LYWSD03MMC")]
        (find_new_xiaomi_devices
          [("A4:C1:38:AA:BB:CC", mkDiscovered 1 "A4:C1:38:AA:BB:CC" "LYWSD03MMC")]
          [("A4:C1:38:AA:BB:CC", "LYWSD03MMC"), ("A4:C1:38:00:11:22", "LYWSD03MMC")]))
        "A4:C1:38:AA:BB:CC"
      = some (mkDiscovered 1 "A4:C1:38:AA:BB:CC" "LYWSD03MMC") :=
  C1_merge_preserves_existing _ _ _ _ (by decide)

/-! Broadcast fan-out. -/

theorem broadcast_delivered_eq (clients : List (Nat × Bool)) :
    (SensorServer.broadcast_message clients).1
      = (clients.takeWhile (fun c => c.2)).map Prod.fst := by
  induction clients with
  | nil => rfl
  | cons c rest ih =>
    obtain ⟨key, sendOk⟩ := c
    cases sendOk with
    | true => simp [SensorServer.broadcast_message, List.takeWhile, ih]
    | false => simp [SensorServer.broadcast_message, List.takeWhile]

theorem broadcast_all_ok (clients : List (Nat × Bool))
    (h : ∀ c ∈ clients, c.2 = true) :
    SensorServer.broadcast_message clients = (clients.map Prod.fst, none) := by
  induction clients with
  | nil => rfl
  | cons c rest ih =>
    obtain ⟨key, sendOk⟩ := c
    have hc : sendOk = true := h (key, sendOk) (List.mem_cons_self _ _)
    subst hc
    simp [SensorServer.broadcast_message,
      ih (fun c hc => h c (List.mem_cons_of_mem _ hc))]

theorem broadcast_delivered_subset (clients : List (Nat × Bool)) :
    ∀ k ∈ (SensorServer.broadcast_message clients).1, k ∈ clients.map Prod.fst := by
  intro k hk
  rw [broadcast_delivered_eq] at hk
  simp only [List.mem_map] at hk ⊢
  obtain ⟨c, hc, hck⟩ := hk
  exact ⟨c, (List.takeWhile_prefix _).sublist.subset hc, hck⟩

/-- Claim C2 (counterexample to the claim as stated): with two connected
clients where the send to client 0 fails, broadcast_message re-raises the
send failure and the still healthy client 1 never receives the message. -/
theorem C2_counterexample :
    SensorServer.broadcast_message [(0, false), (1, true)] = ([], some 0)
    ∧ 1 ∉ (SensorServer.broadcast_message [(0, false), (1, true)]).1 := by
  exact ⟨rfl, by decide⟩

/-- Claim C2 (amended): a targetless broadcast walks the client table keys
in order; a send failure is printed and then re-raised, aborting the
fan-out, so exactly the clients strictly before the first failing one
receive the message.  When every send succeeds all clients in the table
receive it, and only keys present in the table at broadcast time are ever
sent to. -/
theorem C2_broadcast_aborts_on_failure (clients : List (Nat × Bool)) :
    (SensorServer.broadcast_message clients).1
      = (clients.takeWhile (fun c => c.2)).map Prod.fst
    ∧ ((∀ c ∈ clients, c.2 = true) →
        SensorServer.broadcast_message clients = (clients.map Prod.fst, none))
    ∧ ∀ k ∈ (SensorServer.broadcast_message clients).1, k ∈ clients.map Prod.fst :=
  ⟨broadcast_delivered_eq clients, broadcast_all_ok clients,
    broadcast_delivered_subset clients⟩

/-- Witness for C2: two healthy clients both receive the message. -/
theorem C2_witness :
    SensorServer.broadcast_message [(0, true), (1, true)] = ([0, 1], none) :=
  (C2_broadcast_aborts_on_failure [(0, true), (1, true)]).2.1 (by decide)

/-! The single_sensor command. -/

/-- A single_sensor command for device A4:C1:38:AA:BB:CC renaming it to
Kitchen and keeping it active. -/
def single_sensor_msg : Json :=
  Json.obj [("cmd", Json.str "single_sensor"),
    ("data", Json.obj [("index", Json.str "A4:C1:38:AA:BB:CC"),
      ("sensor", Json.obj [("sensor_name", Json.str "Kitchen"),
        ("active", Json.bool true)])])]

/-- The JSON record of the addressed device as stored in the registry. -/
def device_json : Json :=
  Json.obj [("dev_name", Json.str "LYWSD03MMC"),
    ("addr", Json.str "A4:C1:38:AA:BB:CC"),
    ("sensor_name", Json.str "Sensor 01"),
    ("history_file", Json.str "sensor_A4C138AABBCC_history.json"),
    ("active", Json.bool true), ("last_reading", Json.null)]

/-- A server state whose device map holds the addressed device. -/
def st_single : SensorServer.ServerState :=
  { settings := Json.null
    devices := Json.obj [("A4:C1:38:AA:BB:CC", device_json)] }

/-- Claim C3 (code bug): handling a single_sensor command whose addressed
device exists in the device map does not update sensor_name and active;
the handler evaluates addr in self._sensors, but the server object never
defines an attribute _sensors (every other method uses self._devices), so
an AttributeError is raised, the state is left unchanged, and the raised
error removes the session. -/
theorem C3_single_sensor_raises :
    SensorServer.process_client_message st_single
        (SensorServer.RawMessage.parsed single_sensor_msg)
      = (st_single, SensorServer.SessionFate.removed (PyError.attributeError "_sensors")) :=
  rfl

/-! The per-device reading retry loop. -/

/-- A fixed reading used in the concrete retry scenarios. -/
def r0 : Reading :=
  { timestamp := "2020-06-01T12:00:00", temperature := 2150, humidity := 48, battery := 90 }

/-- A registered device with no reading yet. -/
def dev0 : DeviceRecord :=
  { dev_name := "LYWSD03MMC", addr := "A4:C1:38:AA:BB:CC", sensor_name := "Sensor 01",
    history_file := "sensor_A4C138AABBCC_history.json", active := true,
    last_reading := none }

/-- A simulated agent that times out twice and then succeeds. -/
def twoTimeoutsThenOk : Nat → SensorServer.Outcome :=
  fun i => if i < 2 then SensorServer.Outcome.timedOut else SensorServer.Outcome.ok r0

theorem gather_loop_invocations_le (outcomes : Nat → SensorServer.Outcome) :
    ∀ (fuel inv : Nat) (dev : DeviceRecord) (hist : List (String × Reading))
      (n : Nat) (d2 : DeviceRecord) (h2 : List (String × Reading)),
      SensorServer.gather_loop outcomes inv dev hist fuel = Except.ok (n, d2, h2) →
      n ≤ inv + fuel := by
  intro fuel
  induction fuel with
  | zero =>
    intro inv dev hist n d2 h2 hres
    simp only [SensorServer.gather_loop, Except.ok.injEq, Prod.mk.injEq] at hres
    omega
  | succ fuel ih =>
    intro inv dev hist n d2 h2 hres
    cases ho : outcomes inv with
    | ok r =>
      simp only [SensorServer.gather_loop, ho, Except.ok.injEq, Prod.mk.injEq] at hres
      omega
    | invalidArgs =>
      simp [SensorServer.gather_loop, ho] at hres
    | userCancelled =>
      simp only [SensorServer.gather_loop, ho, Except.ok.injEq, Prod.mk.injEq] at hres
      omega
    | timedOut =>
      simp only [SensorServer.gather_loop, ho] at hres
      have := ih (inv + 1) dev hist n d2 h2 hres
      omega
    | disconnected =>
      simp only [SensorServer.gather_loop, ho, Except.ok.injEq, Prod.mk.injEq] at hres
      omega
    | unknown =>
      simp only [SensorServer.gather_loop, ho, Except.ok.injEq, Prod.mk.injEq] at hres
      omega

/-- Claim C4: for any device and max_attempts of at least one, the retry
loop of gather_sensor_readings invokes the read subprocess at most
max_attempts times; a TIMED_OUT exit consumes one attempt and the loop
retries while attempts remain, while DISCONNECTED forces the attempts
counter to max_attempts and stops the loop at once.  With max_attempts 3
and exits timeout, timeout, OK, exactly three invocations happen and the
third reading is recorded on the device and in its history; with a
DISCONNECTED exit on the first attempt exactly one invocation happens. -/
theorem C4_read_retry_discipline (outcomes : Nat → SensorServer.Outcome)
    (m : Nat) (_hm : 1 ≤ m) :
    (∀ (dev : DeviceRecord) (hist : List (String × Reading)) (n : Nat)
        (d2 : DeviceRecord) (h2 : List (String × Reading)),
        SensorServer.gather_one_device outcomes m dev hist = Except.ok (n, d2, h2) →
        n ≤ m)
    ∧ SensorServer.gather_one_device twoTimeoutsThenOk 3 dev0 []
        = Except.ok (3, { dev0 with last_reading := some r0 }, [(r0.timestamp, r0)])
    ∧ SensorServer.gather_one_device (fun _ => SensorServer.Outcome.disconnected) 3 dev0 []
        = Except.ok (1, dev0, []) := by
  refine ⟨?_, rfl, rfl⟩
  intro dev hist n d2 h2 hres
  simpa using gather_loop_invocations_le outcomes m 0 dev hist n d2 h2 hres

/-- Witness for C4 at max_attempts 3 with the timeout, timeout, OK agent. -/
theorem C4_witness :
    SensorServer.gather_one_device twoTimeoutsThenOk 3 dev0 []
      = Except.ok (3, { dev0 with last_reading := some r0 }, [(r0.timestamp, r0)]) :=
  (C4_read_retry_discipline twoTimeoutsThenOk 3 (by decide)).2.1

/-- Claim C5: the scheduler advances next_scan by one interval anchored to
the previous next_scan, and snaps to the completion time only when the
advanced time lies strictly in the past; with a one-minute interval a cycle
completing ten seconds in keeps next_scan at T plus sixty seconds, and a
ninety-second overrun snaps it to the completion time. -/
theorem C5_next_scan_cadence (T I C : Int) :
    (T + I ≥ C → SensorServer.advance_next_scan T I C = T + I)
    ∧ (T + I < C → SensorServer.advance_next_scan T I C = C)
    ∧ SensorServer.advance_next_scan T 60 (T + 10) = T + 60
    ∧ SensorServer.advance_next_scan T 60 (T + 90) = T + 90 := by
  refine ⟨?_, ?_, ?_, ?_⟩ <;>
    · intros
      simp only [SensorServer.advance_next_scan]
      split <;> omega

/-- Witness for C5 with T = 1000, interval 60 and completion at 1010. -/
theorem C5_witness :
    SensorServer.advance_next_scan 1000 60 1010 = 1000 + 60 :=
  (C5_next_scan_cadence 1000 60 1010).1 (by omega)

/-- Claim C6 (counterexample to the claim as stated): when the discovery
subprocess exits with status zero but prints output loads cannot parse,
find_new_xiaomi_devices raises the parse error to its caller instead of
returning an empty device map. -/
theorem C6_counterexample :
    SensorServer.find_new_xiaomi_devices (some 0) SensorServer.SubprocOutput.malformed
      = Except.error PyError.jsonDecodeError
    ∧ SensorServer.find_new_xiaomi_devices (some 0) SensorServer.SubprocOutput.malformed
      ≠ Except.ok [] :=
  ⟨rfl, fun h => Except.noConfusion h⟩

/-- Claim C6 (amended): discovery returns an empty device map without
raising when the subprocess exit status is anything other than zero,
including the process still running after the wait timeout; with a zero
exit status the stdout text is parsed, so valid JSON is returned as the
device map while malformed output makes loads raise, and that error is
propagated to the caller. -/
theorem C6_discovery_error_policy (rc : Option Int) (m : DeviceMap)
    (hrc : rc ≠ some 0) :
    SensorServer.find_new_xiaomi_devices rc SensorServer.SubprocOutput.malformed
      = Except.ok []
    ∧ SensorServer.find_new_xiaomi_devices rc (SensorServer.SubprocOutput.valid m)
      = Except.ok []
    ∧ SensorServer.find_new_xiaomi_devices (some 0) SensorServer.SubprocOutput.malformed
      = Except.error PyError.jsonDecodeError
    ∧ SensorServer.find_new_xiaomi_devices (some 0) (SensorServer.SubprocOutput.valid m)
      = Except.ok m := by
  refine ⟨?_, ?_, rfl, rfl⟩ <;> simp [SensorServer.find_new_xiaomi_devices, hrc]

/-- Witness for C6: a timed-out discovery (returncode still none). -/
theorem C6_witness :
    SensorServer.find_new_xiaomi_devices none SensorServer.SubprocOutput.malformed
      = Except.ok []
    ∧ SensorServer.find_new_xiaomi_devices none (SensorServer.SubprocOutput.valid [])
      = Except.ok []
    ∧ SensorServer.find_new_xiaomi_devices (some 0) SensorServer.SubprocOutput.malformed
      = Except.error PyError.jsonDecodeError
    ∧ SensorServer.find_new_xiaomi_devices (some 0) (SensorServer.SubprocOutput.valid [])
      = Except.ok [] :=
  C6_discovery_error_policy none [] (by decide)

/-- Claim C7: save_settings increments save_id by exactly one, so running
any sequence of operations containing N saves interleaved with mutations of
the other settings (mutations that leave the save_id field itself alone)
ends with save_id equal to the initial value plus N. -/
theorem C7_save_id_counts_saves (s : SensorServer.Settings)
    (ops : List SensorServer.SettingsOp)
    (h : ∀ f, SensorServer.SettingsOp.mutate f ∈ ops →
      ∀ t, (f t).save_id = t.save_id) :
    (SensorServer.save_settings s).save_id = s.save_id + 1
    ∧ (SensorServer.run_settings_ops s ops).save_id
      = s.save_id + SensorServer.countSaves ops := by
  refine ⟨rfl, ?_⟩
  induction ops generalizing s with
  | nil => simp [SensorServer.run_settings_ops, SensorServer.countSaves]
  | cons op rest ih =>
    cases op with
    | save =>
      have hrest := ih (SensorServer.save_settings s)
        (fun f hf t => h f (List.mem_cons_of_mem _ hf) t)
      rw [SensorServer.run_settings_ops, hrest, SensorServer.countSaves,
        SensorServer.save_settings]
      push_cast
      omega
    | mutate f =>
      have hf := h f (List.mem_cons_self _ _) s
      have hrest := ih (f s) (fun g hg t => h g (List.mem_cons_of_mem _ hg) t)
      rw [SensorServer.run_settings_ops, hrest, SensorServer.countSaves, hf]

/-- Witness for C7: starting from the default settings, two saves around a
mutation of scan_seconds leave save_id at two. -/
theorem C7_witness :
    (SensorServer.run_settings_ops
        { interval_mins := 2, interval_secs := 30, sensor_file := "wss_sensors.json",
          save_id := 0, scan_seconds := 5, max_attempts := 3, next_scan := 0 }
        [SensorServer.SettingsOp.save,
          SensorServer.SettingsOp.mutate (fun t => { t with scan_seconds := 9 }),
          SensorServer.SettingsOp.save]).save_id
      = 0 + SensorServer.countSaves
        [SensorServer.SettingsOp.save,
          SensorServer.SettingsOp.mutate (fun t => { t with scan_seconds := 9 }),
          SensorServer.SettingsOp.save] := by
  have h := (C7_save_id_counts_saves
    { interval_mins := 2, interval_secs := 30, sensor_file := "wss_sensors.json",
      save_id := 0, scan_seconds := 5, max_attempts := 3, next_scan := 0 }
    [SensorServer.SettingsOp.save,
      SensorServer.SettingsOp.mutate (fun t => { t with scan_seconds := 9 }),
      SensorServer.SettingsOp.save]
    (by
      intro f hf t
      simp only [List.mem_cons, List.not_mem_nil, or_false] at hf
      rcases hf with hf | hf | hf
      · exact absurd hf (by simp)
      · cases hf
        rfl
      · exact absurd hf (by simp))).2
  exact h

/-! History map lemmas. -/

theorem countKey_cons {α : Type} (a : String) (b : α) (t : List (String × α))
    (k : String) :
    countKey ((a, b) :: t) k = (if a = k then 1 else 0) + countKey t k := by
  by_cases hak : a = k
  · simp [countKey, List.filter_cons, hak]
    omega
  · simp [countKey, List.filter_cons, hak]

theorem countKey_eq_zero_of_not_mem {α : Type} (k : String) :
    ∀ (m : List (String × α)), k ∉ m.map Prod.fst → countKey m k = 0 := by
  intro m
  induction m with
  | nil => intro _; rfl
  | cons p t ih =>
    intro h
    obtain ⟨a, b⟩ := p
    simp only [List.map_cons, List.mem_cons, not_or] at h
    rw [countKey_cons, if_neg (fun hh => h.1 hh.symm), ih h.2]

theorem countKey_dictInsert_of_nodup {α : Type} (k : String) (v : α) :
    ∀ (m : List (String × α)), (m.map Prod.fst).Nodup →
      countKey (dictInsert m k v) k = 1 := by
  intro m
  induction m with
  | nil => intro _; simp [dictInsert, countKey, List.filter_cons]
  | cons p t ih =>
    intro h
    obtain ⟨a, b⟩ := p
    simp only [List.map_cons, List.nodup_cons] at h
    by_cases hak : a = k
    · subst hak
      have hins : dictInsert ((a, b) :: t) a v = (a, v) :: t := by
        simp [dictInsert]
      rw [hins, countKey_cons, if_pos rfl, countKey_eq_zero_of_not_mem a t h.1]
    · simp only [dictInsert, if_neg hak]
      rw [countKey_cons, if_neg hak, ih h.2]

theorem keys_dictInsert_nodup {α : Type} (k : String) (v : α) :
    ∀ (m : List (String × α)), (m.map Prod.fst).Nodup →
      ((dictInsert m k v).map Prod.fst).Nodup := by
  intro m
  induction m with
  | nil => intro _; simp [dictInsert]
  | cons p t ih =>
    intro h
    obtain ⟨a, b⟩ := p
    simp only [List.map_cons, List.nodup_cons] at h
    by_cases hak : a = k
    · subst hak
      simpa [dictInsert] using h
    · simp only [dictInsert, if_neg hak, List.map_cons, List.nodup_cons]
      refine ⟨?_, ih h.2⟩
      intro hmem
      rcases mem_keys_dictInsert t k v a hmem with h1 | h1
      · exact h.1 h1
      · exact hak h1

/-- Claim C8: update_histories stores the reading under its timestamp key,
overwriting any existing entry there and leaving every other timestamp
unchanged; appending two readings with the same timestamp in sequence
leaves exactly one entry under that key, holding the later payload. -/
theorem C8_history_insert (history : List (String × Reading)) (r1 r2 : Reading)
    (hts : r2.timestamp = r1.timestamp) (hnd : (history.map Prod.fst).Nodup) :
    dictGet (SensorServer.update_histories history r1) r1.timestamp = some r1
    ∧ (∀ k, k ≠ r1.timestamp →
        dictGet (SensorServer.update_histories history r1) k = dictGet history k)
    ∧ dictGet (SensorServer.update_histories
        (SensorServer.update_histories history r1) r2) r1.timestamp = some r2
    ∧ countKey (SensorServer.update_histories
        (SensorServer.update_histories history r1) r2) r1.timestamp = 1 := by
  refine ⟨dictGet_insert_self _ _ _, ?_, ?_, ?_⟩
  · intro k hk
    exact dictGet_insert_ne _ _ _ _ hk
  · rw [SensorServer.update_histories, hts]
    exact dictGet_insert_self _ _ _
  · rw [SensorServer.update_histories, hts]
    exact countKey_dictInsert_of_nodup _ _ _ (keys_dictInsert_nodup _ _ _ hnd)

/-- A second reading at the same timestamp with a different temperature. -/
def rLater : Reading :=
  { timestamp := "2020-06-01T12:00:00", temperature := 2000, humidity := 50,
    battery := 80 }

/-- Witness for C8: duplicate-timestamp append into an empty history. -/
theorem C8_witness :
    dictGet (SensorServer.update_histories [] r0) r0.timestamp = some r0
    ∧ dictGet (SensorServer.update_histories
        (SensorServer.update_histories [] r0) rLater) r0.timestamp = some rLater
    ∧ countKey (SensorServer.update_histories
        (SensorServer.update_histories [] r0) rLater) r0.timestamp = 1 := by
  have h := C8_history_insert [] r0 rLater rfl (by simp)
  exact ⟨h.1, h.2.2.1, h.2.2.2⟩

/-! A device pass that never succeeds leaves the device untouched. -/

theorem gather_loop_no_success (outcomes : Nat → SensorServer.Outcome)
    (dev : DeviceRecord) (hist : List (String × Reading)) :
    ∀ (fuel inv : Nat),
      (∀ i, inv ≤ i → i < inv + fuel → SensorServer.nonSuccess (outcomes i) = true) →
      SensorServer.resultState (SensorServer.gather_loop outcomes inv dev hist fuel)
        = some (dev, hist) := by
  intro fuel
  induction fuel with
  | zero => intro inv _; rfl
  | succ fuel ih =>
    intro inv h
    have h0 : SensorServer.nonSuccess (outcomes inv) = true :=
      h inv (Nat.le_refl inv) (by omega)
    cases ho : outcomes inv with
    | ok r => rw [ho] at h0; simp [SensorServer.nonSuccess] at h0
    | invalidArgs => rw [ho] at h0; simp [SensorServer.nonSuccess] at h0
    | userCancelled => simp [SensorServer.gather_loop, ho, SensorServer.resultState]
    | timedOut =>
      simp only [SensorServer.gather_loop, ho]
      exact ih (inv + 1) (fun i hi1 hi2 => h i (by omega) (by omega))
    | disconnected => simp [SensorServer.gather_loop, ho, SensorServer.resultState]
    | unknown => simp [SensorServer.gather_loop, ho, SensorServer.resultState]

/-- Claim C9: when every invocation outcome of a device pass is one that
records no reading and does not raise (all attempts timing out, a
disconnect cutting the loop short, and likewise a user cancellation or an
unknown status), the pass returns with the device record, and in particular
its last_reading field, and the history exactly as they were. -/
theorem C9_no_reading_leaves_device (outcomes : Nat → SensorServer.Outcome)
    (m : Nat) (dev : DeviceRecord) (hist : List (String × Reading))
    (h : ∀ i, i < m → SensorServer.nonSuccess (outcomes i) = true) :
    SensorServer.resultState (SensorServer.gather_one_device outcomes m dev hist)
      = some (dev, hist) :=
  gather_loop_no_success outcomes dev hist m 0
    (fun i _ hi => h i (by omega))

/-- Witness for C9: two timeouts exhaust max_attempts 2 and the device and
history come back unchanged. -/
theorem C9_witness :
    SensorServer.resultState (SensorServer.gather_one_device
        (fun _ => SensorServer.Outcome.timedOut) 2 dev0 [])
      = some (dev0, []) :=
  C9_no_reading_leaves_device (fun _ => SensorServer.Outcome.timedOut) 2 dev0 []
    (by decide)

/-! Undecodable and malformed client messages. -/

theorem process_nonobj (st : SensorServer.ServerState) (j : Json)
    (hno : isObjB j = false) :
    SensorServer.process_client_message st (SensorServer.RawMessage.parsed j)
      = (st, SensorServer.SessionFate.removed PyError.typeError) := by
  cases j <;> simp_all [SensorServer.process_client_message,
    SensorServer.handle_message, jsonGet, isObjB]

theorem handle_message_missing_key (st : SensorServer.ServerState)
    (fields : List (String × Json))
    (h : hasCmdAndData (Json.obj fields) = false) :
    SensorServer.handle_message st (Json.obj fields)
      = Except.error (PyError.keyError
          (if (dictGet fields "cmd").isSome then "data" else "cmd")) := by
  cases hc : dictGet fields "cmd" with
  | none => simp [SensorServer.handle_message, jsonGet, hc]
  | some c =>
    cases hd : dictGet fields "data" with
    | none => simp [SensorServer.handle_message, jsonGet, hc, hd]
    | some d => simp [hasCmdAndData, hc, hd] at h

/-- A server state for the concrete message-handling scenarios. -/
def st0 : SensorServer.ServerState :=
  { settings := Json.null, devices := Json.null }

/-- Claim C10 (counterexample to the claim as stated): the text 5 parses as
JSON but is not an object, and handling it raises TypeError, which is not a
lookup error; the claim holds only in its consequence that the error
propagates and removes the session. -/
theorem C10_counterexample :
    (SensorServer.process_client_message st0
        (SensorServer.RawMessage.parsed (Json.num 5))).2
      = SensorServer.SessionFate.removed PyError.typeError
    ∧ isLookupError PyError.typeError = false :=
  ⟨rfl, rfl⟩

/-- Claim C10 (amended): a frame that fails JSON parsing is logged and
dropped with the session kept active, while a parsed message that is not an
object holding both a cmd and a data key makes handle_message raise, with
the state unchanged, and the propagated error removes the session: a
KeyError, which is a lookup error, names the first missing key when the
message is an object, and a TypeError is raised when it is not an object. -/
theorem C10_bad_message_removes_session (st : SensorServer.ServerState) (j : Json)
    (h : hasCmdAndData j = false) :
    SensorServer.process_client_message st SensorServer.RawMessage.invalid
      = (st, SensorServer.SessionFate.active)
    ∧ (SensorServer.process_client_message st (SensorServer.RawMessage.parsed j)).1 = st
    ∧ (SensorServer.process_client_message st (SensorServer.RawMessage.parsed j)).2
        ≠ SensorServer.SessionFate.active
    ∧ (isObjB j = false →
        (SensorServer.process_client_message st (SensorServer.RawMessage.parsed j)).2
          = SensorServer.SessionFate.removed PyError.typeError)
    ∧ ∀ fields, j = Json.obj fields →
        (SensorServer.process_client_message st (SensorServer.RawMessage.parsed j)).2
          = SensorServer.SessionFate.removed (PyError.keyError
              (if (dictGet fields "cmd").isSome then "data" else "cmd")) := by
  cases j with
  | null =>
    have hh := process_nonobj st Json.null rfl
    exact ⟨rfl, by rw [hh], by simp [hh], fun _ => by simp [hh],
      fun fs hfs => Json.noConfusion hfs⟩
  | bool b =>
    have hh := process_nonobj st (Json.bool b) rfl
    exact ⟨rfl, by rw [hh], by simp [hh], fun _ => by simp [hh],
      fun fs hfs => Json.noConfusion hfs⟩
  | num n =>
    have hh := process_nonobj st (Json.num n) rfl
    exact ⟨rfl, by rw [hh], by simp [hh], fun _ => by simp [hh],
      fun fs hfs => Json.noConfusion hfs⟩
  | str s =>
    have hh := process_nonobj st (Json.str s) rfl
    exact ⟨rfl, by rw [hh], by simp [hh], fun _ => by simp [hh],
      fun fs hfs => Json.noConfusion hfs⟩
  | arr elems =>
    have hh := process_nonobj st (Json.arr elems) rfl
    exact ⟨rfl, by rw [hh], by simp [hh], fun _ => by simp [hh],
      fun fs hfs => Json.noConfusion hfs⟩
  | obj fields =>
    have hh := handle_message_missing_key st fields h
    refine ⟨rfl, ?_, ?_, ?_, ?_⟩
    · simp [SensorServer.process_client_message, hh]
    · simp [SensorServer.process_client_message, hh]
    · intro hfalse
      simp [isObjB] at hfalse
    · intro fs hfs
      cases hfs
      simp [SensorServer.process_client_message, hh]

/-- Witness for C10: a parse failure keeps the session active, and the
empty JSON object is removed with KeyError on cmd. -/
theorem C10_witness :
    SensorServer.process_client_message st0 SensorServer.RawMessage.invalid
      = (st0, SensorServer.SessionFate.active)
    ∧ (SensorServer.process_client_message st0
        (SensorServer.RawMessage.parsed (Json.obj []))).2
      = SensorServer.SessionFate.removed (PyError.keyError "cmd") := by
  have h := C10_bad_message_removes_session st0 (Json.obj []) rfl
  refine ⟨h.1, ?_⟩
  have h5 := h.2.2.2.2 [] rfl
  simpa [dictGet] using h5
